import Mathlib

/-!
Verification of the CODA claim-admissibility gate and multi-source
consensus scorer, shallowly embedded from the repository sources
`src/app.py`, `src/CODA/app.py` and `src/CODA/1_Admin_Dashboard.py`.

Python floats are modelled by exact rationals (`ℚ`); decimal literals
such as `33.3` and `0.7` denote the exact rationals `333/10` and `7/10`.
Python strings are modelled by Lean `String`, restricted to ASCII-level
behaviour of `str.lower`, `str.isupper` and the regex character classes.
-/

set_option maxRecDepth 16384

namespace CODA

/-! ## Consensus scorer (src/app.py, lines 156-161) -/

/-- The truth-score computation of `src/app.py` lines 158-161:
`fact_boost = 20 if fact_claims else 0`;
`matrix_score = min(len(found_sources) * 33.3, 100)`;
`final_score = (matrix_score * 0.7) + ((1 - ml_prob) * 100 * 0.3) + fact_boost`;
`final_score = min(final_score, 100.0)`. -/
def final_score (count : ℕ) (ml_prob : ℚ) (fact_claims : Bool) : ℚ :=
  let fact_boost : ℚ := if fact_claims then 20 else 0
  let matrix_score : ℚ := min ((count : ℚ) * 33.3) 100
  min (matrix_score * 0.7 + (1 - ml_prob) * 100 * 0.3 + fact_boost) 100

/-- Modelled from the spec: the score formula as the specification states it,
`100 × min(count / 3, 1) × 0.7 + (1 − p) × 100 × 0.3 + (20 if hits else 0)`
clamped to at most 100.  Used only to compare the spec's formula with the
code's `final_score`. -/
def spec_score (count : ℕ) (ml_prob : ℚ) (fact_claims : Bool) : ℚ :=
  min (100 * min ((count : ℚ) / 3) 1 * 0.7 + (1 - ml_prob) * 100 * 0.3 +
    (if fact_claims then 20 else 0)) 100

/-- Unfolding lemma for `final_score`. -/
theorem final_score_def (count : ℕ) (ml_prob : ℚ) (fact_claims : Bool) :
    final_score count ml_prob fact_claims =
      min (min ((count : ℚ) * 33.3) 100 * 0.7 + (1 - ml_prob) * 100 * 0.3 +
        (if fact_claims then 20 else 0)) 100 := rfl

/-- Claim C1, counterexample: at count = 3, probability = 0.8, no fact-check
hits, the code's score is `99.9 × 0.7 + 6 = 75.93`, while the spec formula
`100 × min(count/3, 1) × 0.7 + …` yields `76`; the two are not equal. -/
theorem final_score_ne_spec_formula :
    final_score 3 (8/10) false ≠ spec_score 3 (8/10) false := by
  simp only [final_score, spec_score]
  norm_num [min_def]

/-- Claim C1, amended: the consensus score equals
`min(count × 33.3, 100) × 0.7 + (1 − p) × 100 × 0.3 + (20 if hits else 0)`
clamped to at most 100 — the matrix component is 33.3 per source capped at
100 (99.9 at count = 3), not `100 × min(count/3, 1)`; count = 0,
probability = 0.8, no hits still yields exactly 6.0. -/
theorem final_score_closed_form :
    (∀ (count : ℕ) (p : ℚ) (hits : Bool),
      final_score count p hits =
        min (min ((count : ℚ) * 33.3) 100 * 0.7 + (1 - p) * 100 * 0.3 +
          (if hits then 20 else 0)) 100) ∧
    final_score 0 (8/10) false = 6 := by
  refine ⟨fun count p hits => rfl, ?_⟩
  simp only [final_score]
  norm_num [min_def]

/-- Claim C2: for probability in [0,1] the score lies in [0,100]; moreover
count = 4, probability = 0.1, fact-check hit present (raw sum 117) clamps
to exactly 100. -/
theorem final_score_bounds (count : ℕ) (p : ℚ) (h0 : 0 ≤ p) (h1 : p ≤ 1)
    (hits : Bool) :
    0 ≤ final_score count p hits ∧ final_score count p hits ≤ 100 ∧
      final_score 4 (1/10) true = 100 := by
  refine ⟨?_, ?_, ?_⟩
  · rw [final_score_def]
    have hm : (0 : ℚ) ≤ min ((count : ℚ) * 33.3) 100 :=
      le_min (by positivity) (by norm_num)
    have hmul : (0 : ℚ) ≤ min ((count : ℚ) * 33.3) 100 * 0.7 :=
      mul_nonneg hm (by norm_num)
    have hcls : (0 : ℚ) ≤ (1 - p) * 100 * 0.3 := by nlinarith
    have hfb : (0 : ℚ) ≤ (if hits then (20 : ℚ) else 0) := by
      cases hits <;> norm_num
    exact le_min (by linarith) (by norm_num)
  · rw [final_score_def]
    exact min_le_right _ _
  · simp only [final_score]
    norm_num [min_def]

/-- Witness for `final_score_bounds` at count = 0, p = 1/2, no hits. -/
theorem final_score_bounds_witness :
    0 ≤ final_score 0 (1/2) false ∧ final_score 0 (1/2) false ≤ 100 ∧
      final_score 4 (1/10) true = 100 :=
  final_score_bounds 0 (1/2) (by norm_num) (by norm_num) false

/-- Claim C3: with probability and fact-check presence fixed, the score is
monotonically non-decreasing in the trusted-domain count. -/
theorem final_score_mono_in_count (c1 c2 : ℕ) (h : c1 ≤ c2) (p : ℚ)
    (hits : Bool) : final_score c1 p hits ≤ final_score c2 p hits := by
  rw [final_score_def, final_score_def]
  apply min_le_min _ le_rfl
  have hc : (c1 : ℚ) * 33.3 ≤ (c2 : ℚ) * 33.3 := by
    have hcast : (c1 : ℚ) ≤ (c2 : ℚ) := by exact_mod_cast h
    nlinarith
  have hmin : min ((c1 : ℚ) * 33.3) 100 ≤ min ((c2 : ℚ) * 33.3) 100 :=
    min_le_min hc le_rfl
  have := mul_le_mul_of_nonneg_right hmin (show (0:ℚ) ≤ 0.7 by norm_num)
  linarith

/-- Witness for `final_score_mono_in_count` at counts 1 ≤ 2. -/
theorem final_score_mono_in_count_witness :
    final_score 1 (1/2) false ≤ final_score 2 (1/2) false :=
  final_score_mono_in_count 1 2 (by norm_num) (1/2) false

/-- Claim C4: with count and fact-check presence fixed, the score is
monotonically non-increasing in the classifier probability on [0,1]. -/
theorem final_score_antitone_in_prob (p1 p2 : ℚ) (h0 : 0 ≤ p1) (h : p1 ≤ p2)
    (h1 : p2 ≤ 1) (count : ℕ) (hits : Bool) :
    final_score count p2 hits ≤ final_score count p1 hits := by
  rw [final_score_def, final_score_def]
  apply min_le_min _ le_rfl
  have hcls : (1 - p2) * 100 * 0.3 ≤ (1 - p1) * 100 * 0.3 := by nlinarith
  linarith

/-- Witness for `final_score_antitone_in_prob` at probabilities 1/4 ≤ 3/4. -/
theorem final_score_antitone_in_prob_witness :
    final_score 2 (3/4) true ≤ final_score 2 (1/4) true :=
  final_score_antitone_in_prob (1/4) (3/4) (by norm_num) (by norm_num)
    (by norm_num) 2 true

/-! ## Admissibility gate (src/app.py lines 35-42, src/CODA/app.py lines 40-54) -/

/-- The ASCII apostrophe character (code point 39). -/
def apos : Char := Char.ofNat 39

/-- Python `text.strip().split()`: split on runs of whitespace, dropping
empty fragments (leading/trailing whitespace is thereby ignored). -/
def splitWsAux (l : List Char) (acc : List Char) : List String :=
  match l with
  | [] => if acc.isEmpty then [] else [⟨acc.reverse⟩]
  | c :: cs =>
    if c.isWhitespace then
      if acc.isEmpty then splitWsAux cs [] else ⟨acc.reverse⟩ :: splitWsAux cs []
    else splitWsAux cs (c :: acc)

/-- `words = text.strip().split()` of the Python sources. -/
def pyWords (text : String) : List String := splitWsAux text.data []

/-- Python `w.lower()` (ASCII behaviour). -/
def pyLower (w : String) : String := ⟨w.data.map Char.toLower⟩

/-- Python `w.replace` that deletes every apostrophe from `w`. -/
def stripApos (w : String) : String := ⟨w.data.filter (fun c => c ≠ apos)⟩

/-- The literal Python token `"i'm"` from the trigger set. -/
def imTok : String := ⟨['i', apos, 'm']⟩

/-- `personal_triggers = {"i", "me", "my", "mine", "i'm", "am", "hello", "hi"}`
from the sources.  Python iterates the set; membership is order-independent,
so a list model is faithful. -/
def personal_triggers : List String :=
  ["i", "me", "my", "mine", imTok, "am", "hello", "hi"]

/-- Rejection message of the length check. -/
def tooShortMsg : String := "Input too short for analysis."

/-- Rejection message of the personal-statement check. -/
def personalMsg : String :=
  "CODA detected a personal statement. Please provide a news claim."

/-- Rejection message of the entity-density check (src/CODA/app.py only). -/
def noEntitiesMsg : String :=
  "No specific entities (names/places) detected. Try a more specific headline."

/-- `is_valid_news_claim` of `src/app.py` lines 35-42: length check, then
personal-statement check over the lower-cased, apostrophe-stripped first
three words. -/
def is_valid_news_claim (text : String) : Bool × String :=
  let words := pyWords text
  if words.length < 6 then (false, tooShortMsg)
  else
    let firstThree := (words.take 3).map (fun w => stripApos (pyLower w))
    if personal_triggers.any (fun p => firstThree.contains p) then
      (false, personalMsg)
    else (true, "")

/-- `is_valid_news_claim` of `src/CODA/app.py` lines 40-54: as above, plus
the entity-density check `[w for w in words[1:] if w[0].isupper() and len(w) > 1]`. -/
def is_valid_news_claim_coda (text : String) : Bool × String :=
  let words := pyWords text
  if words.length < 6 then (false, tooShortMsg)
  else
    let firstThree := (words.take 3).map (fun w => stripApos (pyLower w))
    if personal_triggers.any (fun p => firstThree.contains p) then
      (false, personalMsg)
    else
      let entities := (words.drop 1).filter
        (fun w => (match w.data with
          | c :: _ => c.isUpper
          | [] => false) && w.length > 1)
      if entities.isEmpty then (false, noEntitiesMsg)
      else (true, "")

/-- Claim C7: any input with fewer than 6 whitespace-split words is rejected
with the length reason, regardless of content, in both gate variants. -/
theorem gate_rejects_short_text (text : String)
    (h : (pyWords text).length < 6) :
    is_valid_news_claim text = (false, tooShortMsg) ∧
      is_valid_news_claim_coda text = (false, tooShortMsg) := by
  constructor <;> simp [is_valid_news_claim, is_valid_news_claim_coda, h]

/-- Witness for `gate_rejects_short_text` on a 4-word text that also contains
personal-statement triggers: the length reason is still the one reported. -/
theorem gate_rejects_short_text_witness :
    is_valid_news_claim "hi I am here" = (false, tooShortMsg) ∧
      is_valid_news_claim_coda "hi I am here" = (false, tooShortMsg) :=
  gate_rejects_short_text "hi I am here" (by decide)

/-- Claim C5, counterexample: a text beginning with `I'm` followed by six more
words is NOT rejected — the apostrophe-stripped first word is `im`, which is
not in the trigger set, so both gate variants admit it. -/
def imText : String :=
  "I" ++ (⟨[apos]⟩ : String) ++ "m Biden says economy will improve soon"

/-- Claim C5, counterexample: the gate admits `imText`, contradicting the
claim that a text beginning with `I'm` followed by five or more words is
rejected as a personal statement. -/
theorem gate_admits_im_text :
    is_valid_news_claim imText = (true, "") ∧
      is_valid_news_claim_coda imText = (true, "") := by
  decide

/-- Claim C5, amended: for any text of at least 6 words whose first three
words, lower-cased with apostrophes stripped, include a token of the trigger
set, the gate rejects it as a personal statement; the token `i'm` itself can
never match, since apostrophes are stripped from the words before comparison,
so a text beginning with `I'm` is not thereby rejected. -/
theorem gate_rejects_personal_statement (text : String)
    (h6 : ¬ (pyWords text).length < 6)
    (htrig : ∃ p ∈ personal_triggers,
      p ∈ ((pyWords text).take 3).map (fun w => stripApos (pyLower w))) :
    is_valid_news_claim text = (false, personalMsg) := by
  obtain ⟨p, hp, hmem⟩ := htrig
  have hany : personal_triggers.any
      (fun q => (((pyWords text).take 3).map
        (fun w => stripApos (pyLower w))).contains q) = true := by
    simp only [List.any_eq_true]
    exact ⟨p, hp, by simpa using hmem⟩
  simp only [is_valid_news_claim]
  rw [if_neg h6, if_pos hany]

/-- Witness for `gate_rejects_personal_statement` on a 7-word text starting
with the greeting trigger `hello`. -/
theorem gate_rejects_personal_statement_witness :
    is_valid_news_claim "hello everyone Biden won the election today" =
      (false, personalMsg) :=
  gate_rejects_personal_statement _ (by decide) (by decide)

/-! ## Entity extractor (src/app.py lines 44-48, src/CODA/app.py lines 56-61)

`re.findall` with pattern `\b[A-Z][a-z]+\b`: because both ends of the match
carry a word boundary and `[a-z]+` is greedy, a match is exactly a maximal
run of word characters (`[A-Za-z0-9_]`) whose whole content is one ASCII
uppercase letter followed by one or more ASCII lowercase letters. -/

/-- Regex word character `\w` (ASCII behaviour): letter, digit or underscore. -/
def isWordChar (c : Char) : Bool := c.isAlpha || c.isDigit || c == '_'

/-- Maximal runs of word characters in a character list. -/
def wordRunsAux (l : List Char) (acc : List Char) : List (List Char) :=
  match l with
  | [] => if acc.isEmpty then [] else [acc.reverse]
  | c :: cs =>
    if isWordChar c then wordRunsAux cs (c :: acc)
    else if acc.isEmpty then wordRunsAux cs []
    else acc.reverse :: wordRunsAux cs []

/-- Maximal word-character runs of a string, in order of appearance. -/
def wordRuns (text : String) : List (List Char) := wordRunsAux text.data []

/-- Whether a word run matches `[A-Z][a-z]+` in full. -/
def capWord (r : List Char) : Bool :=
  match r with
  | c :: rest => c.isUpper && !rest.isEmpty && rest.all (fun d => d.isLower)
  | [] => false

/-- `entities = re.findall(r'\b[A-Z][a-z]+\b', text)` of the sources. -/
def findCapWords (text : String) : List String :=
  ((wordRuns text).filter capWord).map (fun r => ⟨r⟩)

/-- `extract_precise_keywords` of `src/app.py` lines 44-48: quote the first
two capitalized tokens, or return the single one, or fall back to the first
50 characters of the raw text. -/
def extract_precise_keywords (text : String) : String :=
  match findCapWords text with
  | e0 :: e1 :: _ => "\"" ++ e0 ++ " " ++ e1 ++ "\""
  | [e0] => e0
  | [] => text.take 50

/-- Claim C8: with ≥2 capitalized-token matches the extractor returns the
first two as a quoted phrase; with exactly 1 it returns that token alone;
with 0 it returns the first 50 characters of the raw text (empty string for
empty input); and the Reuters/Apple example yields `"Reuters Apple"` quoted. -/
theorem extract_keywords_cases (s : String) :
    (∀ e0 e1 rest, findCapWords s = e0 :: e1 :: rest →
      extract_precise_keywords s = "\"" ++ e0 ++ " " ++ e1 ++ "\"") ∧
    (∀ e0, findCapWords s = [e0] → extract_precise_keywords s = e0) ∧
    (findCapWords s = [] → extract_precise_keywords s = s.take 50) ∧
    extract_precise_keywords "" = "" ∧
    extract_precise_keywords
      "Reuters confirms Apple stock surge after earnings report release" =
      "\"Reuters Apple\"" := by
  refine ⟨?_, ?_, ?_, ?_, ?_⟩
  · intro e0 e1 rest h
    simp [extract_precise_keywords, h]
  · intro e0 h
    simp [extract_precise_keywords, h]
  · intro h
    simp [extract_precise_keywords, h]
  · decide
  · decide

/-- Witness for `extract_keywords_cases`: the two-match branch applied to the
Reuters/Apple example. -/
theorem extract_keywords_cases_witness :
    extract_precise_keywords
      "Reuters confirms Apple stock surge after earnings report release" =
      "\"Reuters Apple\"" :=
  (extract_keywords_cases
    "Reuters confirms Apple stock surge after earnings report release").1
    "Reuters" "Apple" [] (by decide)

/-! ## ML layer (src/app.py lines 96-109 and 145-150, src/CODA/app.py
lines 116-125 and 145-147)

`load_coda_brain` returns the unpickled model/vectorizer pair, or
`(None, None)` when loading raises.  We abstract a successfully loaded pair
as a function from the input text to the classifier output (the composition
`vectorizer.transform` then `model.predict_proba`), so the load result is an
`Option` of that function. -/

/-- Layer 1 of `src/app.py` lines 146-150:
`if model and vectorizer: ml_prob = model.predict_proba(...)[0][1]
else: ml_prob = 0.5`. -/
def ml_prob (brain : Option (String → ℚ)) (user_input : String) : ℚ :=
  match brain with
  | some predict_proba => predict_proba user_input
  | none => 0.5

/-- The analysis of `src/app.py` lines 145-161 after the collector calls:
the truth score computed from the classifier layer's probability. -/
def truth_score_of_run (brain : Option (String → ℚ)) (user_input : String)
    (found_sources : List String) (fact_claims : Bool) : ℚ :=
  final_score found_sources.length (ml_prob brain user_input) fact_claims

/-- Layer 1 of `src/CODA/app.py` lines 145-147: the code calls
`vectorizer.transform([user_input])` with no `None` guard, so when loading
failed (`load_coda_brain` returned `(None, None)`) the attribute access on
`None` raises `AttributeError`; a raised exception is modelled as
`Except.error`. -/
def ml_res (brain : Option (String → ℚ × ℚ)) (user_input : String) :
    Except String (ℚ × ℚ) :=
  match brain with
  | some predict => Except.ok (predict user_input)
  | none => Except.error "AttributeError"

/-- Claim C6: in `src/app.py` an unavailable classifier artifact defaults the
probability to the neutral 0.5 (not zero, not an error) and the analysis
proceeds to a score; in `src/CODA/app.py`, however, the same condition makes
the analysis raise instead of defaulting. -/
theorem ml_prob_defaults_neutral :
    (∀ (text : String) (srcs : List String) (hits : Bool),
      ml_prob none text = 0.5 ∧ ml_prob none text ≠ 0 ∧
        truth_score_of_run none text srcs hits =
          final_score srcs.length 0.5 hits) ∧
    (∀ text : String, ml_res none text = Except.error "AttributeError") := by
  refine ⟨fun text srcs hits => ⟨rfl, by norm_num [ml_prob], rfl⟩, fun text => rfl⟩

/-! ## News consensus collector (src/app.py lines 50-77)

`get_matrix_consensus` performs a live Google Custom Search; we abstract the
network interaction as an `Except`-valued response: `Except.error` models an
exception raised during the lookup (network/auth failure — the library
raises on non-success HTTP status), `Except.ok items` a completed lookup.
`list(set(...))` deduplicates with arbitrary order; `List.dedup` keeps first
occurrences, which has the same cardinality and membership. -/

/-- A search result item; the collector reads only its `displayLink`. -/
structure SearchItem where
  displayLink : String

/-- `get_matrix_consensus` of `src/app.py` lines 50-77, over the abstracted
response. -/
def get_matrix_consensus (creds_present : Bool)
    (response : Except Unit (List SearchItem)) :
    List SearchItem × ((String × String × String) × List String) :=
  if !creds_present then
    ([], (("System Offline", "Grey", "Missing API Credentials"), []))
  else
    match response with
    | Except.error _ =>
      ([], (("System Offline", "Grey", "Matrix Connection Issue"), []))
    | Except.ok items =>
      if items.isEmpty then
        ([], (("High Risk", "Red",
          "Consensus Gap: No matches in trusted matrix."), []))
      else
        let found_domains := (items.map SearchItem.displayLink).dedup
        let count := found_domains.length
        let verdict :=
          if count ≥ 3 then
            ("Verified Fact", "Green", s!"Confirmed by {count} major outlets.")
          else if count ≥ 1 then
            ("Uncertain", "Orange", s!"Reported by {count} trusted source(s).")
          else
            ("High Risk", "Red", "Consensus Gap: No trusted matches found.")
        (items, (verdict, found_domains))

/-- Claim C9, counterexample: on lookup failure the collector returns the
same empty found-sources list as the zero-source success case — the count is
zero, not unknown — and the downstream truth score computed from that list
is therefore identical in the two cases; only the verdict label differs. -/
theorem matrix_consensus_count_zero_on_failure :
    (get_matrix_consensus true (Except.error ())).2.2 = [] ∧
    (get_matrix_consensus true (Except.error ())).2.2 =
      (get_matrix_consensus true (Except.ok [])).2.2 ∧
    final_score (get_matrix_consensus true (Except.error ())).2.2.length
        (1/2) false =
      final_score (get_matrix_consensus true (Except.ok [])).2.2.length
        (1/2) false := by
  refine ⟨rfl, rfl, rfl⟩

/-- Claim C9, amended: a failed lookup yields the Offline verdict with the
connection-issue detail, a completed lookup with no matches yields the
zero-source HighRisk verdict, and the two verdict labels are distinct —
though the returned source list is empty in both cases, so only the label,
not the count, separates them. -/
theorem matrix_consensus_offline_distinct :
    (∀ e : Unit, get_matrix_consensus true (Except.error e) =
      ([], (("System Offline", "Grey", "Matrix Connection Issue"), []))) ∧
    get_matrix_consensus true (Except.ok []) =
      ([], (("High Risk", "Red",
        "Consensus Gap: No matches in trusted matrix."), [])) ∧
    (get_matrix_consensus true (Except.error ())).2.1 ≠
      (get_matrix_consensus true (Except.ok [])).2.1 := by
  refine ⟨fun e => rfl, rfl, by decide⟩

/-! ## Feedback recorder (src/app.py lines 23-33, src/CODA/app.py lines
26-38) and dashboard source explosion (src/CODA/1_Admin_Dashboard.py
lines 27-29) -/

/-- One row of `coda_feedback_log.csv`. -/
structure FeedbackRecord where
  timestamp : String
  input_text : String
  coda_verdict : String
  user_feedback : String
  sources : String

/-- `save_user_feedback`: the appended row; the `sources` field is
`", ".join(sources_found) if sources_found else "None"`. -/
def save_user_feedback (timestamp input_text coda_verdict : String)
    (user_vote : ℕ) (sources_found : List String) : FeedbackRecord :=
  ⟨timestamp, input_text, coda_verdict,
    if user_vote = 1 then "Correct" else "Incorrect",
    if sources_found.isEmpty then "None"
    else String.intercalate ", " sources_found⟩

/-- Pandas `str.split(', ')`: split on the exact two-character separator
`", "`, scanning left to right. -/
def splitCommaSpace (l : List Char) (acc : List Char) : List String :=
  match l with
  | ',' :: ' ' :: rest => ⟨acc.reverse⟩ :: splitCommaSpace rest []
  | c :: rest => splitCommaSpace rest (c :: acc)
  | [] => [⟨acc.reverse⟩]

/-- `r.sources` split on `", "`, as the dashboard does per row. -/
def pySplitSources (s : String) : List String := splitCommaSpace s.data []

/-- The default NA-value strings of `pd.read_csv` (`keep_default_na=True`):
a cell whose unquoted content equals one of these parses as NaN. -/
def pd_default_na_values : List String :=
  ["", "#N/A", "#N/A N/A", "#NA", "-1.#IND", "-1.#QNAN", "-NaN", "-nan",
   "1.#IND", "1.#QNAN", "<NA>", "N/A", "NA", "NULL", "NaN", "None",
   "n/a", "nan", "null"]

/-- `pd.read_csv` parsing of one `sources` cell
(`src/CODA/1_Admin_Dashboard.py` line 12): a default NA string — the
literal `None` among them — becomes NaN (`none`); any other cell is kept. -/
def readCsvCell (s : String) : Option String :=
  if pd_default_na_values.contains s then none else some s

/-- `all_sources = df['sources'].dropna().str.split(', ').explode()` of the
dashboard (`src/CODA/1_Admin_Dashboard.py` lines 12 and 27): the sources
column as re-parsed by `pd.read_csv`, NaN rows dropped by `dropna()`, each
remaining cell split on `", "`, concatenated. -/
def all_sources (records : List FeedbackRecord) : List String :=
  (((records.map (fun r => readCsvCell r.sources)).filterMap id).map
    pySplitSources).flatten

/-- Claim C10, counterexample: for a concrete feedback record with an empty
source collection the logged `sources` field is the literal `"None"`, yet
the dashboard's frequency data contains zero occurrences of `"None"`:
`pd.read_csv` parses the literal `None` cell as NaN and `dropna()` drops the
row before the comma-split explosion. -/
theorem feedback_none_not_counted :
    (save_user_feedback "Mon Jan 1" "some claim text" "High Risk" 1
      []).sources = "None" ∧
    (all_sources [save_user_feedback "Mon Jan 1" "some claim text"
      "High Risk" 1 []]).count "None" = 0 := by
  refine ⟨rfl, rfl⟩

/-- Claim C10, amended: with an empty source collection the recorded
`sources` field is the literal string `"None"` rather than the empty string;
however, the dashboard's `pd.read_csv` parses that literal as NaN by default
and its `dropna()` drops the row before the comma-split explosion, so the
value `"None"` never reaches the frequency table. -/
theorem feedback_none_sources (t txt verdict : String) (vote : ℕ) :
    (save_user_feedback t txt verdict vote []).sources = "None" ∧
    (save_user_feedback t txt verdict vote []).sources ≠ "" ∧
    readCsvCell (save_user_feedback t txt verdict vote []).sources = none ∧
    (all_sources [save_user_feedback t txt verdict vote []]).count "None" = 0 := by
  refine ⟨rfl, ?_, rfl, rfl⟩
  show ("None" : String) ≠ ""
  decide

end CODA
